import Mathlib

/-!
Verification of the visitor check-in backend
(`src/visitor_management_backend/src/api/main.py`).

The embedding below translates the three pieces of logic the claims are
about:
* `visitor_checkin_step` — the conversational check-in step handler,
  a pure function over the caller-supplied `conversation_state`
  (a Python `Dict[str, str]`, modelled as an association list);
* `validate_field` — the standalone field validator;
* `visitor_checkin_finalize` — the finalize handler's get-or-create
  persistence logic, with the database modelled as lists of rows plus
  autoincrement counters.

Python string operations used by the handlers are embedded over
`String.data` (`List Char`) so that everything reduces by `decide`:
`str.strip()` becomes `pyStrip`, `"@" in s` becomes `strContains`,
`str.isdigit()` becomes `pyIsDigit`, `len` is `String.length`.
Python truthiness of `state.get(field)` (false for both a missing key
and the empty string) is `falsyGet`.
-/

namespace VisitorKiosk

/-- Python `str.strip()`: drop leading and trailing whitespace. -/
def pyStrip (s : String) : String :=
  ⟨((s.data.dropWhile Char.isWhitespace).reverse.dropWhile Char.isWhitespace).reverse⟩

/-- Python `c in s` for a single character `c` (substring test of `"@"`). -/
def strContains (s : String) (c : Char) : Bool :=
  s.data.any (fun x => x == c)

/-- Python `str.isdigit()`: non-empty and every character a digit. -/
def pyIsDigit (s : String) : Bool :=
  !s.data.isEmpty && s.data.all Char.isDigit

/-- A Python `Dict[str, str]` as an insertion-ordered association list. -/
abbrev StrMap := List (String × String)

/-- `dict.get(k)`: the value at the first occurrence of key `k`, if any. -/
def StrMap.get (m : StrMap) (k : String) : Option String :=
  match m with
  | [] => none
  | (k', v) :: rest => if k' = k then some v else StrMap.get rest k

/-- `dict[k] = v`: replace the value at `k` in place, or append `(k, v)`. -/
def StrMap.set (m : StrMap) (k v : String) : StrMap :=
  match m with
  | [] => [(k, v)]
  | (k', v') :: rest =>
      if k' = k then (k, v) :: rest else (k', v') :: StrMap.set rest k v

/-- Python truthiness test `not state.get(field)`:
true when the key is absent or holds the empty string. -/
def falsyGet (m : StrMap) (k : String) : Bool :=
  match StrMap.get m k with
  | none => true
  | some v => v == ""

/-- The fixed `(field, prompt)` sequence of `visitor_checkin_step`. -/
def expected_fields_order : List (String × String) :=
  [("full_name", "What is your full name?"),
   ("email", "What is your email address? (You may skip)"),
   ("phone", "And your phone number? (optional)"),
   ("id_number", "Do you have an ID or passport number to provide? (optional)"),
   ("host_email", "Who are you visiting today? Please provide their email."),
   ("purpose", "What is the purpose of your visit?")]

/-- The completion prompt returned when the re-scan finds no pending field. -/
def completionPrompt : String :=
  "Thank you, your check-in data is almost complete. Please scan your ID, if required."

/-- The first `(field, prompt)` of the fixed order whose field is absent or
empty in the state (the `for ... break` scan of the handler). -/
def findPending (m : StrMap) : Option (String × String) :=
  expected_fields_order.find? (fun fp => falsyGet m fp.1)

/-- The name of the first pending field of a state, if any. -/
def firstPendingField (m : StrMap) : Option String :=
  (findPending m).map (fun fp => fp.1)

/-- `VisitorCheckinStepResponse`.  In the Python model `next_prompt` is a
required `str`; it is `Option` here because the handler can in fact leave
it `None` (see `C1`), which the declared response model rejects. -/
structure VisitorCheckinStepResponse where
  next_prompt : Option String
  next_field : Option String
  conversation_state : StrMap
  is_complete : Bool
  errors : Option (List String)
deriving Repr, DecidableEq

/-- Embedding of the handler `visitor_checkin_step`: scan for the pending
field, assign the stripped input to it when both exist, validate
`email` / `host_email` (`@` must occur, the raw value is stored either
way), re-scan, and report completion when the re-scan finds nothing. -/
def visitor_checkin_step (conversation_state : StrMap) (user_input : String) :
    VisitorCheckinStepResponse :=
  let raw_input := pyStrip user_input
  match findPending conversation_state with
  | none =>
      -- no pending field: `if next_field and raw_input` is false, nothing
      -- is assigned and `is_complete` keeps its initial value `False`
      { next_prompt := none, next_field := none,
        conversation_state := conversation_state,
        is_complete := false, errors := none }
  | some (field0, prompt0) =>
      if raw_input = "" then
        { next_prompt := some prompt0, next_field := some field0,
          conversation_state := conversation_state,
          is_complete := false, errors := none }
      else
        let state' := StrMap.set conversation_state field0 raw_input
        let errs :=
          (if field0 == "email" && !strContains raw_input '@' then
            ["Invalid email format."] else [])
          ++ (if field0 == "host_email" && !strContains raw_input '@' then
            ["Please provide a valid email for the host."] else [])
        match findPending state' with
        | some (field1, prompt1) =>
            { next_prompt := some prompt1, next_field := some field1,
              conversation_state := state',
              is_complete := false,
              errors := if errs.isEmpty then none else some errs }
        | none =>
            { next_prompt := some completionPrompt,
              next_field := some field0,
              conversation_state := state',
              is_complete := true,
              errors := if errs.isEmpty then none else some errs }

/-- `FieldValidationResult`. -/
structure FieldValidationResult where
  field : String
  value : String
  is_valid : Bool
  errors : Option (List String)
deriving Repr, DecidableEq

/-- The phone rejection test of `validate_field`:
`not value.isdigit() or not (7 <= len(value) <= 15)`. -/
def phoneInvalid (value : String) : Prop :=
  ¬ pyIsDigit value = true ∨ ¬ (7 ≤ value.length ∧ value.length ≤ 15)

instance (value : String) : Decidable (phoneInvalid value) := by
  unfold phoneInvalid; infer_instance

/-- Embedding of the handler `validate_field`. -/
def validate_field (field value : String) : FieldValidationResult :=
  let errs : List String :=
    if field == "email" then
      (if !strContains value '@' then ["Invalid email format."] else [])
    else if field == "phone" then
      (if phoneInvalid value then
        ["Invalid phone number; must be 7-15 digits."] else [])
    else if field == "id_number" then
      (if value.length < 3 then ["ID must be at least 3 characters."] else [])
    else []
  { field := field, value := value,
    is_valid := errs.isEmpty,
    errors := if errs.isEmpty then none else some errs }

/-- A sequence of check-in calls: each call feeds the `conversation_state`
echoed by the previous response back to `visitor_checkin_step`, exactly as
the stateless API requires of its caller.  Returns the responses in call
order. -/
def stepChain (inputs : List String) (s : StrMap) :
    List VisitorCheckinStepResponse :=
  match inputs with
  | [] => []
  | i :: rest =>
      let r := visitor_checkin_step s i
      r :: stepChain rest r.conversation_state

/-- A row of the `visitors` table. -/
structure VisitorRow where
  id : Nat
  full_name : String
  email : Option String
  phone : Option String
  id_number : Option String
deriving Repr, DecidableEq

/-- A row of the `hosts` table (`email` carries what the handler inserts,
which is the payload's `host_email`). -/
structure HostRow where
  id : Nat
  full_name : String
  email : Option String
deriving Repr, DecidableEq

/-- A row of the `visit_logs` table (timestamps elided: they are
server-generated defaults the claims do not mention). -/
structure VisitLogRow where
  id : Nat
  visitor_id : Nat
  host_id : Nat
  purpose : Option String
  status : String
deriving Repr, DecidableEq

/-- The backing store: the three tables touched by finalize, with
autoincrement counters for their primary keys. -/
structure DB where
  visitors : List VisitorRow
  hosts : List HostRow
  visit_logs : List VisitLogRow
  next_visitor_id : Nat
  next_host_id : Nat
  next_visit_id : Nat
deriving Repr, DecidableEq

/-- The finalize payload: `full_name` is required (`payload["full_name"]`
raises a 400 when missing), the rest are `payload.get(...)`. -/
structure CheckinFinalizePayload where
  full_name : String
  email : Option String
  phone : Option String
  id_number : Option String
  purpose : Option String
  host_email : Option String
deriving Repr, DecidableEq

/-- The row predicate of `db.query(Visitor).filter_by(full_name=..., email=...)`. -/
def visitorMatches (p : CheckinFinalizePayload) (v : VisitorRow) : Bool :=
  v.full_name == p.full_name && v.email == p.email

/-- The visitor row inserted when the lookup finds no match. -/
def newVisitorRow (p : CheckinFinalizePayload) (db : DB) : VisitorRow :=
  { id := db.next_visitor_id, full_name := p.full_name, email := p.email,
    phone := p.phone, id_number := p.id_number }

/-- Embedding of the handler `visitor_checkin_finalize`: get-or-create a
`Visitor` by `(full_name, email)`, get-or-create a `Host` by `email`
(its name the local part of `host_email`), insert one `VisitLog` with
`status = "checked_in"`.  `none` models the uncaught `AttributeError`
raised by `host_email.split("@")` when `host_email` is `None` and no
host row matches. -/
def visitor_checkin_finalize (p : CheckinFinalizePayload) (db : DB) :
    Option (DB × VisitLogRow) :=
  let vres : VisitorRow × DB :=
    match db.visitors.find? (visitorMatches p) with
    | some v => (v, db)
    | none =>
        let v : VisitorRow :=
          { id := db.next_visitor_id, full_name := p.full_name,
            email := p.email, phone := p.phone, id_number := p.id_number }
        (v, { db with visitors := db.visitors ++ [v],
                      next_visitor_id := db.next_visitor_id + 1 })
  let visitor := vres.1
  let db1 := vres.2
  let hres : Option (HostRow × DB) :=
    match db1.hosts.find? (fun h => h.email == p.host_email) with
    | some h => some (h, db1)
    | none =>
        match p.host_email with
        | none => none
        | some he =>
            let h : HostRow :=
              { id := db1.next_host_id,
                full_name := (he.splitOn "@").headD "", email := some he }
            some (h, { db1 with hosts := db1.hosts ++ [h],
                                next_host_id := db1.next_host_id + 1 })
  match hres with
  | none => none
  | some (host, db2) =>
      let visit : VisitLogRow :=
        { id := db2.next_visit_id, visitor_id := visitor.id,
          host_id := host.id, purpose := p.purpose, status := "checked_in" }
      some ({ db2 with visit_logs := db2.visit_logs ++ [visit],
                       next_visit_id := db2.next_visit_id + 1 }, visit)

/-- The example payload used by the finalize witness. -/
def samplePayload : CheckinFinalizePayload :=
  { full_name := "Ada Lovelace", email := some "ada@example.com",
    phone := some "5551234567", id_number := some "P1234567",
    purpose := some "audit", host_email := some "host@example.com" }

/-- The example (empty) database used by the finalize witness. -/
def sampleDB : DB :=
  { visitors := [], hosts := [], visit_logs := [],
    next_visitor_id := 1, next_host_id := 1, next_visit_id := 1 }

/-- Reading back the key just written yields the written value. -/
theorem StrMap.get_set_self (m : StrMap) (k v : String) :
    StrMap.get (StrMap.set m k v) k = some v := by
  induction m with
  | nil => simp [StrMap.set, StrMap.get]
  | cons p rest ih =>
      obtain ⟨k', v'⟩ := p
      by_cases h : k' = k
      · simp [StrMap.set, StrMap.get, h]
      · simp [StrMap.set, StrMap.get, h, ih]

/-- Writing one key leaves every other key unchanged. -/
theorem StrMap.get_set_ne (m : StrMap) (k v k2 : String) (h : k2 ≠ k) :
    StrMap.get (StrMap.set m k v) k2 = StrMap.get m k2 := by
  induction m with
  | nil => simp [StrMap.set, StrMap.get, Ne.symm h]
  | cons p rest ih =>
      obtain ⟨k', v'⟩ := p
      by_cases hk : k' = k
      · subst hk
        simp [StrMap.set, StrMap.get, Ne.symm h]
      · simp [StrMap.set, StrMap.get, hk, ih]

/-- The field found pending is indeed absent or empty in the state. -/
theorem falsyGet_of_findPending (m : StrMap) (f p : String)
    (h : findPending m = some (f, p)) : falsyGet m f = true := by
  have := List.find?_some h
  simpa using this

/-- When every field of the fixed order is present and non-empty, the scan
finds no pending field. -/
theorem findPending_eq_none (m : StrMap)
    (h : ∀ fp ∈ expected_fields_order, falsyGet m fp.1 = false) :
    findPending m = none := by
  refine List.find?_eq_none.mpr ?_
  intro x hx
  simp [h x hx]

/-- Branch lemma: no pending field means nothing is assigned and the
response carries null prompt and field with `is_complete = false`. -/
theorem step_no_pending (s : StrMap) (i : String) (hf : findPending s = none) :
    visitor_checkin_step s i =
      { next_prompt := none, next_field := none, conversation_state := s,
        is_complete := false, errors := none } := by
  unfold visitor_checkin_step
  rw [hf]

/-- Branch lemma: a pending field but blank input returns that field and
its prompt with the state untouched. -/
theorem step_empty_input (s : StrMap) (i f p : String)
    (hf : findPending s = some (f, p)) (h : pyStrip i = "") :
    visitor_checkin_step s i =
      { next_prompt := some p, next_field := some f, conversation_state := s,
        is_complete := false, errors := none } := by
  unfold visitor_checkin_step
  rw [hf]
  simp [h]

/-- Branch lemma: a pending field and non-blank input assigns the stripped
input, validates it, and re-scans. -/
theorem step_assign (s : StrMap) (i f p : String)
    (hf : findPending s = some (f, p)) (h : pyStrip i ≠ "") :
    visitor_checkin_step s i =
      (let raw := pyStrip i
       let state' := StrMap.set s f raw
       let errs :=
         (if f == "email" && !strContains raw '@' then
           ["Invalid email format."] else [])
         ++ (if f == "host_email" && !strContains raw '@' then
           ["Please provide a valid email for the host."] else [])
       match findPending state' with
       | some (field1, prompt1) =>
           { next_prompt := some prompt1, next_field := some field1,
             conversation_state := state', is_complete := false,
             errors := if errs.isEmpty then none else some errs }
       | none =>
           { next_prompt := some completionPrompt, next_field := some f,
             conversation_state := state', is_complete := true,
             errors := if errs.isEmpty then none else some errs }) := by
  unfold visitor_checkin_step
  rw [hf]
  simp [h]

/-- After an assignment the response echoes the updated state, whatever
the re-scan finds. -/
theorem step_assign_state (s : StrMap) (i f p : String)
    (hf : findPending s = some (f, p)) (hi : pyStrip i ≠ "") :
    (visitor_checkin_step s i).conversation_state
      = StrMap.set s f (pyStrip i) := by
  rw [step_assign s i f p hf hi]
  cases hf2 : findPending (StrMap.set s f (pyStrip i)) with
  | none => simp [hf2]
  | some fp2 => obtain ⟨f2, p2⟩ := fp2; simp [hf2]

/-- After an assignment the errors are determined by the validation of the
assigned field alone, whatever the re-scan finds. -/
theorem step_assign_errors (s : StrMap) (i f p : String)
    (hf : findPending s = some (f, p)) (hi : pyStrip i ≠ "") :
    (visitor_checkin_step s i).errors
      = (let errs :=
          (if f == "email" && !strContains (pyStrip i) '@' then
            ["Invalid email format."] else [])
          ++ (if f == "host_email" && !strContains (pyStrip i) '@' then
            ["Please provide a valid email for the host."] else [])
         if errs.isEmpty then none else some errs) := by
  rw [step_assign s i f p hf hi]
  cases hf2 : findPending (StrMap.set s f (pyStrip i)) with
  | none => simp [hf2]
  | some fp2 => obtain ⟨f2, p2⟩ := fp2; simp [hf2]

/-- An assignment after which some field is still pending: the full
response record, in the error-free case. -/
theorem step_assign_mid (s : StrMap) (i f p f2 p2 : String)
    (hf : findPending s = some (f, p)) (hi : pyStrip i ≠ "")
    (hf2 : findPending (StrMap.set s f (pyStrip i)) = some (f2, p2))
    (herr : ((if f == "email" && !strContains (pyStrip i) '@' then
          ["Invalid email format."] else [])
        ++ (if f == "host_email" && !strContains (pyStrip i) '@' then
          ["Please provide a valid email for the host."] else [])) = []) :
    visitor_checkin_step s i =
      { next_prompt := some p2, next_field := some f2,
        conversation_state := StrMap.set s f (pyStrip i),
        is_complete := false, errors := none } := by
  rw [step_assign s i f p hf hi]
  simp [hf2]
  simpa using herr

/-- An assignment that fills the last missing field: the full response
record, in the error-free case. -/
theorem step_assign_final (s : StrMap) (i f p : String)
    (hf : findPending s = some (f, p)) (hi : pyStrip i ≠ "")
    (hdone : findPending (StrMap.set s f (pyStrip i)) = none)
    (herr : ((if f == "email" && !strContains (pyStrip i) '@' then
          ["Invalid email format."] else [])
        ++ (if f == "host_email" && !strContains (pyStrip i) '@' then
          ["Please provide a valid email for the host."] else [])) = []) :
    visitor_checkin_step s i =
      { next_prompt := some completionPrompt, next_field := some f,
        conversation_state := StrMap.set s f (pyStrip i),
        is_complete := true, errors := none } := by
  rw [step_assign s i f p hf hi]
  simp [hdone]
  simpa using herr

/-- C3: starting from the empty conversation_state, any input that is
non-empty after stripping is stored as `full_name` (the stripped input),
and the response asks for `email` next with the email prompt. -/
theorem checkin_step_first_call_assigns_full_name (i : String)
    (h : pyStrip i ≠ "") :
    StrMap.get (visitor_checkin_step [] i).conversation_state "full_name"
        = some (pyStrip i)
      ∧ (visitor_checkin_step [] i).next_field = some "email"
      ∧ (visitor_checkin_step [] i).next_prompt
        = some "What is your email address? (You may skip)" := by
  have hb : (pyStrip i == "") = false := beq_eq_false_iff_ne.mpr h
  have hf : findPending [] = some ("full_name", "What is your full name?") := by
    decide
  rw [step_assign [] i _ _ hf h]
  have hfp : findPending [("full_name", pyStrip i)]
      = some ("email", "What is your email address? (You may skip)") := by
    simp [findPending, expected_fields_order, List.find?, falsyGet, StrMap.get, hb]
  simp [StrMap.set, hfp, StrMap.get]

/-- Closed witness for `checkin_step_first_call_assigns_full_name`. -/
theorem checkin_step_first_call_assigns_full_name_witness :
    StrMap.get (visitor_checkin_step [] "  Ada Lovelace ").conversation_state
        "full_name" = some "Ada Lovelace"
      ∧ (visitor_checkin_step [] "  Ada Lovelace ").next_field = some "email"
      ∧ (visitor_checkin_step [] "  Ada Lovelace ").next_prompt
        = some "What is your email address? (You may skip)" := by
  have := checkin_step_first_call_assigns_full_name "  Ada Lovelace " (by decide)
  simpa using this

/-- C7: when some field is still pending and the input strips to empty,
the response repeats that field and its prompt, echoes the state
unchanged, and reports no errors. -/
theorem checkin_step_blank_input_repeats_prompt (s : StrMap) (i f p : String)
    (hf : findPending s = some (f, p)) (hi : pyStrip i = "") :
    (visitor_checkin_step s i).next_field = some f
      ∧ (visitor_checkin_step s i).next_prompt = some p
      ∧ (visitor_checkin_step s i).conversation_state = s
      ∧ (visitor_checkin_step s i).errors = none := by
  rw [step_empty_input s i f p hf hi]
  exact ⟨rfl, rfl, rfl, rfl⟩

/-- Closed witness for `checkin_step_blank_input_repeats_prompt`. -/
theorem checkin_step_blank_input_repeats_prompt_witness :
    (visitor_checkin_step [] "   ").next_field = some "full_name"
      ∧ (visitor_checkin_step [] "   ").next_prompt
        = some "What is your full name?"
      ∧ (visitor_checkin_step [] "   ").conversation_state = []
      ∧ (visitor_checkin_step [] "   ").errors = none :=
  checkin_step_blank_input_repeats_prompt [] "   " "full_name"
    "What is your full name?" (by decide) (by decide)

/-- C8: two calls with the identical state and (empty-stripping) input
return identical responses component by component — the handler is a pure
function of its request. -/
theorem checkin_step_idempotent_on_blank_input (s : StrMap) (i : String)
    (_hi : pyStrip i = "") :
    (visitor_checkin_step s i).next_prompt = (visitor_checkin_step s i).next_prompt
      ∧ (visitor_checkin_step s i).next_field = (visitor_checkin_step s i).next_field
      ∧ (visitor_checkin_step s i).conversation_state
        = (visitor_checkin_step s i).conversation_state
      ∧ (visitor_checkin_step s i).is_complete = (visitor_checkin_step s i).is_complete
      ∧ (visitor_checkin_step s i).errors = (visitor_checkin_step s i).errors :=
  ⟨rfl, rfl, rfl, rfl, rfl⟩

/-- Closed witness for `checkin_step_idempotent_on_blank_input`. -/
theorem checkin_step_idempotent_on_blank_input_witness :
    (visitor_checkin_step [("full_name", "Ada")] "").next_prompt
        = (visitor_checkin_step [("full_name", "Ada")] "").next_prompt
      ∧ (visitor_checkin_step [("full_name", "Ada")] "").next_field
        = (visitor_checkin_step [("full_name", "Ada")] "").next_field
      ∧ (visitor_checkin_step [("full_name", "Ada")] "").conversation_state
        = (visitor_checkin_step [("full_name", "Ada")] "").conversation_state
      ∧ (visitor_checkin_step [("full_name", "Ada")] "").is_complete
        = (visitor_checkin_step [("full_name", "Ada")] "").is_complete
      ∧ (visitor_checkin_step [("full_name", "Ada")] "").errors
        = (visitor_checkin_step [("full_name", "Ada")] "").errors :=
  checkin_step_idempotent_on_blank_input [("full_name", "Ada")] "" (by decide)

/-- C10: whenever the response reports `is_complete = true`, `next_field`
is not null — it still names the field that was pending before the input
was applied (the field just assigned), while `next_prompt` is the
completion message. -/
theorem checkin_step_complete_keeps_last_field (s : StrMap) (i : String)
    (h : (visitor_checkin_step s i).is_complete = true) :
    (visitor_checkin_step s i).next_field ≠ none
      ∧ (visitor_checkin_step s i).next_field = firstPendingField s
      ∧ (visitor_checkin_step s i).next_prompt = some completionPrompt := by
  cases hf : findPending s with
  | none =>
      rw [step_no_pending s i hf] at h
      exact absurd h (by simp)
  | some fp =>
      obtain ⟨f, p⟩ := fp
      by_cases hi : pyStrip i = ""
      · rw [step_empty_input s i f p hf hi] at h
        exact absurd h (by simp)
      · cases hf2 : findPending (StrMap.set s f (pyStrip i)) with
        | some fp2 =>
            rw [step_assign s i f p hf hi] at h
            simp only [hf2] at h
            exact absurd h (by simp)
        | none =>
            rw [step_assign s i f p hf hi]
            simp only [hf2]
            simp [firstPendingField, hf]

/-- Closed witness for `checkin_step_complete_keeps_last_field`: a state
with only `purpose` missing, completed by this call. -/
theorem checkin_step_complete_keeps_last_field_witness :
    (visitor_checkin_step
        [("full_name", "Ada"), ("email", "ada@x.io"), ("phone", "1234567"),
         ("id_number", "P99"), ("host_email", "bob@x.io")] "sales meeting").next_field
        ≠ none
      ∧ (visitor_checkin_step
          [("full_name", "Ada"), ("email", "ada@x.io"), ("phone", "1234567"),
           ("id_number", "P99"), ("host_email", "bob@x.io")] "sales meeting").next_field
        = firstPendingField
            [("full_name", "Ada"), ("email", "ada@x.io"), ("phone", "1234567"),
             ("id_number", "P99"), ("host_email", "bob@x.io")]
      ∧ (visitor_checkin_step
          [("full_name", "Ada"), ("email", "ada@x.io"), ("phone", "1234567"),
           ("id_number", "P99"), ("host_email", "bob@x.io")] "sales meeting").next_prompt
        = some completionPrompt :=
  checkin_step_complete_keeps_last_field
    [("full_name", "Ada"), ("email", "ada@x.io"), ("phone", "1234567"),
     ("id_number", "P99"), ("host_email", "bob@x.io")] "sales meeting" (by decide)

/-- C1 (code evaluation): a conversation_state with all six fields already
non-empty.  The handler's first scan finds no pending field, the
assignment/re-scan block is skipped, and the response keeps
`is_complete = false` with `next_prompt = None` and `next_field = None` —
not the completion prompt the spec promises (and `next_prompt = None` is
rejected by the declared `next_prompt: str` response model). -/
theorem checkin_step_full_state_not_marked_complete :
    (visitor_checkin_step
        [("full_name", "Ada"), ("email", "ada@x.io"), ("phone", "1234567"),
         ("id_number", "P99"), ("host_email", "bob@x.io"), ("purpose", "sales")]
        "hello").is_complete = false
      ∧ (visitor_checkin_step
          [("full_name", "Ada"), ("email", "ada@x.io"), ("phone", "1234567"),
           ("id_number", "P99"), ("host_email", "bob@x.io"), ("purpose", "sales")]
          "hello").next_prompt = none
      ∧ (visitor_checkin_step
          [("full_name", "Ada"), ("email", "ada@x.io"), ("phone", "1234567"),
           ("id_number", "P99"), ("host_email", "bob@x.io"), ("purpose", "sales")]
          "hello").next_field = none := by
  decide

/-- C9: the state returned by a step either is the input state, or differs
from it exactly at the first field of the fixed order that was absent or
empty — that key receives the stripped input, every other key keeps its
input value, so no existing non-empty answer is ever modified or
removed. -/
theorem checkin_step_frame (s : StrMap) (i : String) :
    (visitor_checkin_step s i).conversation_state = s
      ∨ ∃ k, firstPendingField s = some k
          ∧ falsyGet s k = true
          ∧ (visitor_checkin_step s i).conversation_state
            = StrMap.set s k (pyStrip i)
          ∧ ∀ k2, k2 ≠ k →
              StrMap.get (visitor_checkin_step s i).conversation_state k2
                = StrMap.get s k2 := by
  cases hf : findPending s with
  | none =>
      left
      rw [step_no_pending s i hf]
  | some fp =>
      obtain ⟨f, p⟩ := fp
      by_cases hi : pyStrip i = ""
      · left
        rw [step_empty_input s i f p hf hi]
      · right
        refine ⟨f, by simp [firstPendingField, hf],
          falsyGet_of_findPending s f p hf, step_assign_state s i f p hf hi, ?_⟩
        intro k2 hk2
        rw [step_assign_state s i f p hf hi]
        exact StrMap.get_set_ne s f (pyStrip i) k2 hk2

/-- C4: when the first pending field is `email` or `host_email` and the
input strips to a non-empty value lacking `@`, the raw stripped value is
still stored under that field and the response carries a non-empty
validation-error list. -/
theorem checkin_step_invalid_email_stored (s : StrMap) (i f p : String)
    (hf : findPending s = some (f, p))
    (hfe : f = "email" ∨ f = "host_email")
    (hi : pyStrip i ≠ "")
    (hat : strContains (pyStrip i) '@' = false) :
    StrMap.get (visitor_checkin_step s i).conversation_state f
        = some (pyStrip i)
      ∧ (visitor_checkin_step s i).errors ≠ none
      ∧ (visitor_checkin_step s i).errors ≠ some [] := by
  refine ⟨?_, ?_⟩
  · rw [step_assign_state s i f p hf hi]
    exact StrMap.get_set_self s f (pyStrip i)
  · rw [step_assign_errors s i f p hf hi]
    rcases hfe with he | he <;> subst he <;> simp [hat]

/-- Closed witness for `checkin_step_invalid_email_stored`. -/
theorem checkin_step_invalid_email_stored_witness :
    StrMap.get
        (visitor_checkin_step [("full_name", "Ada")] "not-an-email").conversation_state
        "email" = some "not-an-email"
      ∧ (visitor_checkin_step [("full_name", "Ada")] "not-an-email").errors ≠ none
      ∧ (visitor_checkin_step [("full_name", "Ada")] "not-an-email").errors
        ≠ some [] :=
  checkin_step_invalid_email_stored [("full_name", "Ada")] "not-an-email"
    "email" "What is your email address? (You may skip)"
    (by decide) (Or.inl rfl) (by decide) (by decide)

/-- C2: feeding the six fields in order — a name, an email containing `@`,
a phone, an id number, a host email containing `@`, and a purpose, each
non-empty after stripping — yields no errors on any call and
`is_complete = true` exactly on the sixth call. -/
theorem checkin_step_six_valid_inputs_complete
    (n e ph idn he pu : String)
    (h1 : pyStrip n ≠ "")
    (h2 : pyStrip e ≠ "") (h2a : strContains (pyStrip e) '@' = true)
    (h3 : pyStrip ph ≠ "")
    (h4 : pyStrip idn ≠ "")
    (h5 : pyStrip he ≠ "") (h5a : strContains (pyStrip he) '@' = true)
    (h6 : pyStrip pu ≠ "") :
    (stepChain [n, e, ph, idn, he, pu] []).map VisitorCheckinStepResponse.errors
        = [none, none, none, none, none, none]
      ∧ (stepChain [n, e, ph, idn, he, pu] []).map
          VisitorCheckinStepResponse.is_complete
        = [false, false, false, false, false, true] := by
  have hb1 : (pyStrip n == "") = false := beq_eq_false_iff_ne.mpr h1
  have hb2 : (pyStrip e == "") = false := beq_eq_false_iff_ne.mpr h2
  have hb3 : (pyStrip ph == "") = false := beq_eq_false_iff_ne.mpr h3
  have hb4 : (pyStrip idn == "") = false := beq_eq_false_iff_ne.mpr h4
  have hb5 : (pyStrip he == "") = false := beq_eq_false_iff_ne.mpr h5
  have hb6 : (pyStrip pu == "") = false := beq_eq_false_iff_ne.mpr h6
  have hf1 : findPending [] = some ("full_name", "What is your full name?") := by
    decide
  have hf2 : findPending [("full_name", pyStrip n)]
      = some ("email", "What is your email address? (You may skip)") := by
    simp [findPending, expected_fields_order, List.find?, falsyGet, StrMap.get, hb1]
  have hf3 : findPending [("full_name", pyStrip n), ("email", pyStrip e)]
      = some ("phone", "And your phone number? (optional)") := by
    simp [findPending, expected_fields_order, List.find?, falsyGet, StrMap.get,
      hb1, hb2]
  have hf4 : findPending
      [("full_name", pyStrip n), ("email", pyStrip e), ("phone", pyStrip ph)]
      = some ("id_number",
          "Do you have an ID or passport number to provide? (optional)") := by
    simp [findPending, expected_fields_order, List.find?, falsyGet, StrMap.get,
      hb1, hb2, hb3]
  have hf5 : findPending
      [("full_name", pyStrip n), ("email", pyStrip e), ("phone", pyStrip ph),
       ("id_number", pyStrip idn)]
      = some ("host_email",
          "Who are you visiting today? Please provide their email.") := by
    simp [findPending, expected_fields_order, List.find?, falsyGet, StrMap.get,
      hb1, hb2, hb3, hb4]
  have hf6 : findPending
      [("full_name", pyStrip n), ("email", pyStrip e), ("phone", pyStrip ph),
       ("id_number", pyStrip idn), ("host_email", pyStrip he)]
      = some ("purpose", "What is the purpose of your visit?") := by
    simp [findPending, expected_fields_order, List.find?, falsyGet, StrMap.get,
      hb1, hb2, hb3, hb4, hb5]
  have hf7 : findPending
      [("full_name", pyStrip n), ("email", pyStrip e), ("phone", pyStrip ph),
       ("id_number", pyStrip idn), ("host_email", pyStrip he),
       ("purpose", pyStrip pu)]
      = none := by
    simp [findPending, expected_fields_order, List.find?, falsyGet, StrMap.get,
      hb1, hb2, hb3, hb4, hb5, hb6]
  have e1 : visitor_checkin_step [] n
      = { next_prompt := some "What is your email address? (You may skip)",
          next_field := some "email",
          conversation_state := [("full_name", pyStrip n)],
          is_complete := false, errors := none } :=
    step_assign_mid [] n "full_name" "What is your full name?"
      "email" "What is your email address? (You may skip)" hf1 h1 hf2 (by simp)
  have e2 : visitor_checkin_step [("full_name", pyStrip n)] e
      = { next_prompt := some "And your phone number? (optional)",
          next_field := some "phone",
          conversation_state := [("full_name", pyStrip n), ("email", pyStrip e)],
          is_complete := false, errors := none } :=
    step_assign_mid [("full_name", pyStrip n)] e
      "email" "What is your email address? (You may skip)"
      "phone" "And your phone number? (optional)" hf2 h2 hf3 (by simp [h2a])
  have e3 : visitor_checkin_step
      [("full_name", pyStrip n), ("email", pyStrip e)] ph
      = { next_prompt :=
            some "Do you have an ID or passport number to provide? (optional)",
          next_field := some "id_number",
          conversation_state :=
            [("full_name", pyStrip n), ("email", pyStrip e),
             ("phone", pyStrip ph)],
          is_complete := false, errors := none } :=
    step_assign_mid [("full_name", pyStrip n), ("email", pyStrip e)] ph
      "phone" "And your phone number? (optional)"
      "id_number" "Do you have an ID or passport number to provide? (optional)"
      hf3 h3 hf4 (by simp)
  have e4 : visitor_checkin_step
      [("full_name", pyStrip n), ("email", pyStrip e), ("phone", pyStrip ph)] idn
      = { next_prompt :=
            some "Who are you visiting today? Please provide their email.",
          next_field := some "host_email",
          conversation_state :=
            [("full_name", pyStrip n), ("email", pyStrip e),
             ("phone", pyStrip ph), ("id_number", pyStrip idn)],
          is_complete := false, errors := none } :=
    step_assign_mid
      [("full_name", pyStrip n), ("email", pyStrip e), ("phone", pyStrip ph)] idn
      "id_number" "Do you have an ID or passport number to provide? (optional)"
      "host_email" "Who are you visiting today? Please provide their email."
      hf4 h4 hf5 (by simp)
  have e5 : visitor_checkin_step
      [("full_name", pyStrip n), ("email", pyStrip e), ("phone", pyStrip ph),
       ("id_number", pyStrip idn)] he
      = { next_prompt := some "What is the purpose of your visit?",
          next_field := some "purpose",
          conversation_state :=
            [("full_name", pyStrip n), ("email", pyStrip e),
             ("phone", pyStrip ph), ("id_number", pyStrip idn),
             ("host_email", pyStrip he)],
          is_complete := false, errors := none } :=
    step_assign_mid
      [("full_name", pyStrip n), ("email", pyStrip e), ("phone", pyStrip ph),
       ("id_number", pyStrip idn)] he
      "host_email" "Who are you visiting today? Please provide their email."
      "purpose" "What is the purpose of your visit?" hf5 h5 hf6 (by simp [h5a])
  have e6 : visitor_checkin_step
      [("full_name", pyStrip n), ("email", pyStrip e), ("phone", pyStrip ph),
       ("id_number", pyStrip idn), ("host_email", pyStrip he)] pu
      = { next_prompt := some completionPrompt,
          next_field := some "purpose",
          conversation_state :=
            [("full_name", pyStrip n), ("email", pyStrip e),
             ("phone", pyStrip ph), ("id_number", pyStrip idn),
             ("host_email", pyStrip he), ("purpose", pyStrip pu)],
          is_complete := true, errors := none } :=
    step_assign_final
      [("full_name", pyStrip n), ("email", pyStrip e), ("phone", pyStrip ph),
       ("id_number", pyStrip idn), ("host_email", pyStrip he)] pu
      "purpose" "What is the purpose of your visit?" hf6 h6 hf7 (by simp)
  simp [stepChain, e1, e2, e3, e4, e5, e6]

/-- Closed witness for `checkin_step_six_valid_inputs_complete`. -/
theorem checkin_step_six_valid_inputs_complete_witness :
    (stepChain
        ["Ada Lovelace", "ada@example.com", "5551234567", "P1234567",
         "host@example.com", "quarterly audit"] []).map
        VisitorCheckinStepResponse.errors
      = [none, none, none, none, none, none]
      ∧ (stepChain
          ["Ada Lovelace", "ada@example.com", "5551234567", "P1234567",
           "host@example.com", "quarterly audit"] []).map
          VisitorCheckinStepResponse.is_complete
        = [false, false, false, false, false, true] :=
  checkin_step_six_valid_inputs_complete
    "Ada Lovelace" "ada@example.com" "5551234567" "P1234567"
    "host@example.com" "quarterly audit"
    (by decide) (by decide) (by decide) (by decide) (by decide) (by decide)
    (by decide) (by decide)

/-- With length at least 7 the string is non-empty, so Python's
`isdigit()` agrees with "every character is a digit". -/
theorem pyIsDigit_iff_all_of_len (v : String) (h7 : 7 ≤ v.length) :
    pyIsDigit v = true ↔ v.data.all Char.isDigit = true := by
  have hne : v.data.isEmpty = false := by
    cases hdata : v.data with
    | nil =>
        exfalso
        have hlen : v.length = v.data.length := rfl
        rw [hdata] at hlen
        simp at hlen
        omega
    | cons a l => rfl
  simp [pyIsDigit, hne]

/-- C5: `validate_field` accepts `phone` exactly for all-digit values of
length 7 to 15, `id_number` exactly for length at least 3, `email`
exactly when `@` occurs, accepts every value of any other field, and
returns a null error list exactly when it accepts. -/
theorem validate_field_rules (f v : String) :
    ((validate_field f v).is_valid = true ↔
      (if f = "phone" then
        v.data.all Char.isDigit = true ∧ 7 ≤ v.length ∧ v.length ≤ 15
       else if f = "id_number" then 3 ≤ v.length
       else if f = "email" then strContains v '@' = true
       else True))
    ∧ ((validate_field f v).errors = none
        ↔ (validate_field f v).is_valid = true) := by
  by_cases hem : f = "email"
  · subst hem
    cases hc : strContains v '@' <;> simp [validate_field, hc]
  · by_cases hph : f = "phone"
    · subst hph
      by_cases hcond : phoneInvalid v
      · have hv : (validate_field "phone" v).is_valid = false := by
          simp [validate_field, hcond]
        refine And.intro ?_ (by simp [validate_field, hcond])
        rw [hv, if_pos rfl]
        refine iff_of_false (by simp) ?_
        rintro ⟨ha, h7, h15⟩
        rcases hcond with hno | hnb
        · exact hno ((pyIsDigit_iff_all_of_len v h7).mpr ha)
        · exact hnb ⟨h7, h15⟩
      · have hcomp : pyIsDigit v = true ∧ 7 ≤ v.length ∧ v.length ≤ 15 := by
          unfold phoneInvalid at hcond
          push_neg at hcond
          exact hcond
        obtain ⟨hd, h7, h15⟩ := hcomp
        have ha := (pyIsDigit_iff_all_of_len v h7).mp hd
        simp [validate_field, hcond, ha, h7, h15]
    · by_cases hid : f = "id_number"
      · subst hid
        by_cases h3 : v.length < 3
        · simp [validate_field, hph, hem, h3]
        · simp [validate_field, hph, hem, h3]
          omega
      · simp [validate_field, hem, hph, hid]

/-- C6: finalizing with a `(full_name, email)` pair no existing visitor
row matches appends exactly one new visitor row carrying that pair; a
second identical call appends no visitor row and its visit log points at
the id the first call allocated. -/
theorem finalize_get_or_create_visitor
    (db : DB) (p : CheckinFinalizePayload) (he : String)
    (hhe : p.host_email = some he)
    (hnone : ∀ v ∈ db.visitors, visitorMatches p v = false) :
    (visitor_checkin_finalize p db).map (fun r => r.1.visitors)
        = some (db.visitors ++ [newVisitorRow p db])
      ∧ (visitor_checkin_finalize p db).map (fun r => r.2.visitor_id)
        = some db.next_visitor_id
      ∧ ((visitor_checkin_finalize p db).bind fun r =>
          (visitor_checkin_finalize p r.1).map (fun r2 => r2.1.visitors))
        = some (db.visitors ++ [newVisitorRow p db])
      ∧ ((visitor_checkin_finalize p db).bind fun r =>
          (visitor_checkin_finalize p r.1).map (fun r2 => r2.2.visitor_id))
        = some db.next_visitor_id := by
  have hfind : db.visitors.find? (visitorMatches p) = none :=
    List.find?_eq_none.mpr (fun x hx => by simp [hnone x hx])
  have hmatch_new : visitorMatches p
      ({ id := db.next_visitor_id, full_name := p.full_name, email := p.email,
         phone := p.phone, id_number := p.id_number } : VisitorRow) = true := by
    simp [visitorMatches]
  have hfind1 : (db.visitors ++
      [({ id := db.next_visitor_id, full_name := p.full_name, email := p.email,
          phone := p.phone, id_number := p.id_number } : VisitorRow)]).find?
        (visitorMatches p)
      = some { id := db.next_visitor_id, full_name := p.full_name,
               email := p.email, phone := p.phone,
               id_number := p.id_number } := by
    rw [List.find?_append, hfind]
    exact List.find?_cons_of_pos _ hmatch_new
  cases hh : db.hosts.find? (fun h => h.email == p.host_email) with
  | some h0 =>
      refine ⟨?_, ?_, ?_, ?_⟩ <;>
        simp [visitor_checkin_finalize, hfind, hh, hfind1, newVisitorRow]
  | none =>
      rw [hhe] at hh
      have hh2 : (db.hosts ++
          [({ id := db.next_host_id, full_name := (he.splitOn "@").headD "",
              email := some he } : HostRow)]).find?
            (fun h => h.email == some he)
          = some { id := db.next_host_id,
                   full_name := (he.splitOn "@").headD "",
                   email := some he } := by
        rw [List.find?_append, hh, Option.none_or]
        exact List.find?_cons_of_pos _ (by simp)
      refine ⟨?_, ?_, ?_, ?_⟩ <;>
        simp [visitor_checkin_finalize, hfind, hhe, hh, hh2, hfind1,
          newVisitorRow]

/-- Closed witness for `finalize_get_or_create_visitor`: an empty database
and a fully supplied payload. -/
theorem finalize_get_or_create_visitor_witness :
    (visitor_checkin_finalize samplePayload sampleDB).map (fun r => r.1.visitors)
        = some (sampleDB.visitors ++ [newVisitorRow samplePayload sampleDB])
      ∧ (visitor_checkin_finalize samplePayload sampleDB).map
          (fun r => r.2.visitor_id)
        = some sampleDB.next_visitor_id
      ∧ ((visitor_checkin_finalize samplePayload sampleDB).bind fun r =>
          (visitor_checkin_finalize samplePayload r.1).map (fun r2 => r2.1.visitors))
        = some (sampleDB.visitors ++ [newVisitorRow samplePayload sampleDB])
      ∧ ((visitor_checkin_finalize samplePayload sampleDB).bind fun r =>
          (visitor_checkin_finalize samplePayload r.1).map
            (fun r2 => r2.2.visitor_id))
        = some sampleDB.next_visitor_id :=
  finalize_get_or_create_visitor sampleDB samplePayload
    "host@example.com" rfl (by decide)

end VisitorKiosk
